import Mathlib

/-!
Shallow embedding of the mcq-tui question/answer core: the `Question` data
model and constructor (src/src/question.py), the per-question-type key
handlers (src/src/input_handlers.py), answer formatting for display and for
YAML export (src/src/answer_formatting.py, src/src/export.py), and the main
loop's forward-advance and jump handling (src/mcq_tui.py).  Machine strings
are modelled over their character lists; Python-specific behaviours
(truthiness, negative list indexing, `str.strip`, `str.lower`, `int(...)`
parsing) are modelled by explicit helper functions.
-/

namespace McqTui

/-- Whitespace characters removed by Python `str.strip()` (ASCII subset). -/
def isPyWS (c : Char) : Bool :=
  c = ' ' || c = '\t' || c = '\n' || c = '\r' || c = '\x0b' || c = '\x0c'

/-- Python `str.strip()` on a character list: drop whitespace from both ends. -/
def pyStripList (l : List Char) : List Char :=
  ((l.dropWhile isPyWS).reverse.dropWhile isPyWS).reverse

/-- Python `str.strip()`. -/
def pyStrip (s : String) : String := ⟨pyStripList s.data⟩

/-- Python `str.lower()` (ASCII model). -/
def pyLower (s : String) : String := ⟨s.data.map Char.toLower⟩

/-- Python `sorted` on a list of naturals (ascending; the sorted permutation
of a list of naturals is unique, so any correct sort models it). -/
def pySorted (l : List Nat) : List Nat := l.insertionSort (· ≤ ·)

/-- Python truthiness of an optional string: `None` and the empty string are
falsy, every other string is truthy. -/
def truthyStr : Option String → Bool
  | none => false
  | some s => s ≠ ""

/-- Python `str(x)` applied to an optional string, as used inside f-strings:
`None` prints as "None". -/
def pyStr : Option String → String
  | none => "None"
  | some s => s

/-- Python list indexing `l[i]`: negative indices count from the end of the
list; `none` models an `IndexError`. -/
def pyIndex {α : Type} (l : List α) (i : Int) : Option α :=
  if 0 ≤ i then l.get? i.toNat
  else if 0 ≤ i + l.length then l.get? (i + l.length).toNat
  else none

/-- The list comprehension `[options[i - 1] for i in idxs]` under Python
indexing; `none` models an `IndexError` raised mid-comprehension. -/
def pyIndexAll (opts : List String) : List Nat → Option (List String)
  | [] => some []
  | i :: rest =>
    match pyIndex opts ((i : Int) - 1), pyIndexAll opts rest with
    | some o, some os => some (o :: os)
    | _, _ => none

/-- The `Question` object of src/src/question.py (answer-relevant fields).
`user_answer` holds the selected option number (`0` is the Single "other"
sentinel, `3` the YesNo "other" sentinel); `user_answers` is the Multi
selection list; `other_answer` is the free text for an "other" choice. -/
structure Question where
  question_text : String
  options : List String
  question_type : String
  question_id : Option String
  correct_answer : Option Int
  user_answer : Option Nat
  user_answers : List Nat
  other_answer : Option String
deriving DecidableEq, Repr

/-- The `correctAnswer` value handed to the constructor: either a Python
integer or a value of some non-integer type (checked via isinstance). -/
inductive CorrInput where
  | intVal (n : Int)
  | nonInt
deriving DecidableEq, Repr

/-- Constructor `Question.__init__` of src/src/question.py: rejects blank
question text with ValueError, strips text and options, lowercases a
non-empty type string (empty/None falls back to "single"), and silently
nulls a non-integer or out-of-range `correct_answer`. -/
def mkQuestion (question_text : Option String) (options : List String)
    (question_type : String) (question_id : Option String)
    (correct_answer : Option CorrInput) : Except String Question :=
  if pyStrip (question_text.getD "") = "" then
    .error "Question text cannot be empty"
  else
    let opts := options.map pyStrip
    .ok
    { question_text := pyStrip (question_text.getD "")
      options := opts
      question_type := if question_type = "" then "single" else pyLower question_type
      question_id := question_id
      correct_answer :=
        match correct_answer with
        | some (.intVal n) => if n < 1 ∨ n > (opts.length : Int) then none else some n
        | some .nonInt => none
        | none => none
      user_answer := none
      user_answers := []
      other_answer := none }

/-- Method `Question.is_answered` of src/src/question.py. -/
def Question.is_answered (q : Question) : Bool :=
  if q.question_type = "multi" then decide (0 < q.user_answers.length)
  else if q.question_type = "yesno" then q.user_answer.isSome || q.other_answer.isSome
  else q.user_answer.isSome

/-- The resolved handler variant: dispatch switch of `get_user_answer` in
src/src/input_handlers.py (anything that is not "multi" or "yesno" goes to
the single-select handler). -/
inductive QType where
  | single
  | multi
  | yesno
deriving DecidableEq, Repr

/-- Dispatch of `get_user_answer` (src/src/input_handlers.py, lines 377-382). -/
def dispatchType (s : String) : QType :=
  if s = "multi" then .multi else if s = "yesno" then .yesno else .single

/-- An exported answer value: a plain string ("Yes"/"No"), an
Other/free-text object, a single-choice object `(index, option)`, or a
multi-choice object `(selected_indices, selected_options)`. -/
inductive AnswerVal where
  | strVal (s : String)
  | otherVal (value : String)
  | choiceVal (index : Nat) (opt : String)
  | multiVal (idxs : List Nat) (opts : List String)
deriving DecidableEq, Repr

/-- Function `_format_answer_for_yaml` of src/src/export.py.  The `Except`
layer models a possible `IndexError` from `options[i - 1]` (the single-select
branch performs no bounds check, so `user_answer == 0` with falsy
`other_answer` reaches Python index `-1`, i.e. the last option). -/
def formatAnswerForYaml (q : Question) : Except String (Option AnswerVal) :=
  if q.question_type = "multi" then
    if q.user_answers ≠ [] then
      match pyIndexAll q.options (pySorted q.user_answers) with
      | some opts => .ok (some (.multiVal (pySorted q.user_answers) opts))
      | none => .error "IndexError"
    else .ok none
  else if q.question_type = "yesno" then
    if q.user_answer = some 1 then .ok (some (.strVal "Yes"))
    else if q.user_answer = some 2 then .ok (some (.strVal "No"))
    else if q.user_answer = some 3 ∧ truthyStr q.other_answer then
      .ok (some (.otherVal (q.other_answer.getD "")))
    else .ok none
  else
    if q.user_answer = some 0 ∧ truthyStr q.other_answer then
      .ok (some (.otherVal (q.other_answer.getD "")))
    else
      match q.user_answer with
      | some k =>
        match pyIndex q.options ((k : Int) - 1) with
        | some o => .ok (some (.choiceVal k o))
        | none => .error "IndexError"
      | none => .ok none

/-- The "answer" entry computed by `Question.get_answer_dict` in
src/src/question.py (the multi and single branches bounds-check indices, so
no `IndexError` is possible there). -/
def getAnswerDictAnswer (q : Question) : Option AnswerVal :=
  if q.question_type = "multi" then
    if q.user_answers ≠ [] then
      let valid := (pySorted q.user_answers).filter
        (fun i => decide (1 ≤ i ∧ i ≤ q.options.length))
      if valid ≠ [] then
        some (.multiVal valid (valid.map (fun i => q.options.getD (i - 1) "")))
      else none
    else none
  else if q.question_type = "yesno" then
    if q.user_answer = some 1 then some (.strVal "Yes")
    else if q.user_answer = some 2 then some (.strVal "No")
    else if q.user_answer = some 3 ∧ truthyStr q.other_answer then
      some (.otherVal (q.other_answer.getD ""))
    else none
  else
    if q.user_answer = some 0 ∧ truthyStr q.other_answer then
      some (.otherVal (q.other_answer.getD ""))
    else
      match q.user_answer with
      | some k =>
        if 1 ≤ k ∧ k ≤ q.options.length then
          some (.choiceVal k (q.options.getD (k - 1) ""))
        else none
      | none => none

/-- Function `format_multi_answer` of src/src/answer_formatting.py. -/
def formatMultiAnswer (q : Question) : Option String :=
  if q.user_answers ≠ [] then
    some (String.intercalate "," ((pySorted q.user_answers).map toString))
  else none

/-- Logical key events consumed by the single-select handler.  A digit event
carries the free text that the handler would line-read from the user; the
text is consulted only when the digit is the "other" sentinel `0`. -/
inductive SEvent where
  | left
  | right
  | enter
  | keyQuit
  | keyJump
  | keySummary
  | digit (d : Nat) (freeText : String)
  | char (c : Char)

/-- One loop iteration of `get_single_select_answer`
(src/src/input_handlers.py, lines 133-246) for one decoded key event.
The second component is `some (answer_data, nav_command)` when the handler
returns, `none` when its while-loop continues; the first component is the
question with its (possibly mutated) answer state. -/
def singleStep (q : Question) (e : SEvent) :
    Question × Option (Option String × Option String) :=
  match e with
  | .left => (q, some (none, some "p"))
  | .right =>
    match q.user_answer with
    | some ua =>
      if ua = 0 then (q, some (some ("0:" ++ pyStr q.other_answer), none))
      else (q, some (some (toString ua), none))
    | none => (q, some (none, some "n"))
  | .enter =>
    match q.user_answer with
    | some ua =>
      if ua = 0 then (q, some (some ("0:" ++ pyStr q.other_answer), none))
      else (q, some (some (toString ua), none))
    | none => (q, some (none, some "n"))
  | .keyQuit => (q, some (none, some "q"))
  | .keyJump => (q, some (none, some "j"))
  | .keySummary => (q, some (none, some "s"))
  | .digit d t =>
    if d > q.options.length then (q, none)
    else if d = 0 then
      ({ q with user_answer := some 0, other_answer := some (pyStrip t) }, none)
    else
      ({ q with user_answer := some d, other_answer := none }, none)
  | .char _ => (q, none)

/-- Logical key events consumed by the yes/no handler; `yes` stands for the
keys 1/y/Y, `no` for 2/n/N, `otherKey` for 3/o/O together with the free text
the handler would line-read. -/
inductive YEvent where
  | left
  | right
  | enter
  | keyQuit
  | keyJump
  | keySummary
  | yes
  | no
  | otherKey (freeText : String)
  | char (c : Char)

/-- One loop iteration of `get_yesno_answer` (src/src/input_handlers.py,
lines 249-366) for one decoded key event. -/
def yesnoStep (q : Question) (e : YEvent) :
    Question × Option (Option String × Option String) :=
  match e with
  | .left => (q, some (none, some "p"))
  | .right =>
    if q.user_answer = some 1 then (q, some (some "1", none))
    else if q.user_answer = some 2 then (q, some (some "2", none))
    else if truthyStr q.other_answer ∨ q.user_answer = some 3 then
      (q, some (some ("3:" ++ pyStr q.other_answer), none))
    else (q, some (none, some "n"))
  | .enter =>
    if q.user_answer = some 1 then (q, some (some "1", none))
    else if q.user_answer = some 2 then (q, some (some "2", none))
    else if truthyStr q.other_answer ∨ q.user_answer = some 3 then
      (q, some (some ("3:" ++ pyStr q.other_answer), none))
    else (q, some (none, some "n"))
  | .keyQuit => (q, some (none, some "q"))
  | .keyJump => (q, some (none, some "j"))
  | .keySummary => (q, some (none, some "s"))
  | .yes => ({ q with user_answer := some 1, other_answer := none }, none)
  | .no => ({ q with user_answer := some 2, other_answer := none }, none)
  | .otherKey t =>
    ({ q with user_answer := some 3, other_answer := some (pyStrip t) }, none)
  | .char _ => (q, none)

/-- Logical key events consumed by the multi-select handler. -/
inductive MEvent where
  | left
  | right
  | enter
  | keyQuit
  | keyJump
  | keySummary
  | digit (d : Nat)
  | char (c : Char)

/-- The comma-joined sorted selection returned by the multi handler:
`",".join(str(n) for n in sorted(selected))`. -/
def joinSel (sel : Finset ℕ) : String :=
  String.intercalate "," ((sel.sort (· ≤ ·)).map toString)

/-- One loop iteration of `get_multi_select_answer`
(src/src/input_handlers.py, lines 18-130) for one decoded key event, acting
on the local selection set `selected`; `nOpts` is `len(question.options)`.
In-range digits toggle membership, everything else leaves the set alone. -/
def multiStep (nOpts : Nat) (sel : Finset ℕ) (e : MEvent) :
    Finset ℕ × Option (Option String × Option String) :=
  match e with
  | .left => (sel, some (none, some "p"))
  | .right =>
    if sel.Nonempty then (sel, some (some (joinSel sel), none))
    else (sel, some (none, some "n"))
  | .enter =>
    if sel.Nonempty then (sel, some (some (joinSel sel), none))
    else (sel, some (none, some "n"))
  | .keyQuit => (sel, some (none, some "q"))
  | .keyJump => (sel, some (none, some "j"))
  | .keySummary => (sel, some (none, some "s"))
  | .digit d =>
    if 1 ≤ d ∧ d ≤ nOpts then
      (if d ∈ sel then sel.erase d else insert d sel, none)
    else (sel, none)
  | .char _ => (sel, none)

/-- The write-back `question.user_answers = sorted(list(selected))` performed
by the multi handler after every toggle. -/
def multiWriteback (sel : Finset ℕ) : List Nat := sel.sort (· ≤ ·)

/-- Forward-advance step of the main loop in src/mcq_tui.py (lines 398-427):
on a skip-forward or a recorded answer, the 0-based cursor advances only
while strictly below the last index; at the last question the session shows
the summary and terminates with the cursor unchanged.  Returns the new
cursor and whether the session terminated. -/
def sessionNext (cursor total : Nat) : Nat × Bool :=
  if cursor < total - 1 then (cursor + 1, false) else (cursor, true)

/-- Decimal digit test for Python `int(...)` parsing. -/
def isDigitChar (c : Char) : Bool := '0' ≤ c && c ≤ '9'

/-- Numeric value of a decimal digit character. -/
def digitVal (c : Char) : Nat := c.toNat - '0'.toNat

/-- Remaining characters of a Python integer literal after its first digit:
further digits, with single underscores permitted between digits. -/
def udRest : List Char → List Nat → Option (List Nat)
  | [], acc => some acc
  | '_' :: c :: rest, acc =>
    if isDigitChar c then udRest rest (acc ++ [digitVal c]) else none
  | ['_'], _ => none
  | c :: rest, acc =>
    if isDigitChar c then udRest rest (acc ++ [digitVal c]) else none

/-- A full digit run of a Python integer literal (non-empty, starts with a
digit, single underscores only between digits), returning its value. -/
def udigits (cs : List Char) : Option Nat :=
  match cs with
  | [] => none
  | c :: rest =>
    if isDigitChar c then
      (udRest rest [digitVal c]).map (fun ds => ds.foldl (fun n d => n * 10 + d) 0)
    else none

/-- Python `int(s)` on a decimal string: surrounding whitespace is stripped,
one optional sign, then a digit run; `none` models a ValueError. -/
def pyParseInt (s : String) : Option Int :=
  match pyStripList s.data with
  | '+' :: rest => (udigits rest).map (fun n => (n : Int))
  | '-' :: rest => (udigits rest).map (fun n => -(n : Int))
  | cs => (udigits cs).map (fun n => (n : Int))

/-- Jump handling of the main loop in src/mcq_tui.py (lines 379-392): parse
the prompted target with `int(...)`; a parse failure or an out-of-range
target leaves the 0-based cursor unchanged, a target in `[1, total]` sets
the cursor to `target - 1`. -/
def jumpStep (target : String) (total cursor : Nat) : Nat :=
  match pyParseInt target with
  | none => cursor
  | some t => if 1 ≤ t ∧ t ≤ (total : Int) then (t - 1).toNat else cursor

/-- A source record of the YAML file as seen by `export_results_to_yaml`
(src/src/export.py): its `id` field (already coerced with `str(...)`, as the
code does on both sides of the comparison), its `answer` field, and an
opaque payload standing for all the fields the export never touches. -/
structure SrcRecord where
  rid : Option String
  answer : Option AnswerVal
  payload : String
deriving DecidableEq, Repr

/-- Lookup in the `question_by_id` dict built by `export_results_to_yaml`:
questions with a non-null id are inserted in order, so the last question
with a given id wins. -/
def findById (qs : List Question) (key : String) : Option Question :=
  (qs.filter (fun q => decide (q.question_id = some key))).getLast?

/-- Matching for one source record at position `idx`: by id first, then by
list position (src/src/export.py, lines 87-97). -/
def matchRecord (qs : List Question) (idx : Nat) (r : SrcRecord) : Option Question :=
  match r.rid with
  | some key =>
    match findById qs key with
    | some q => some q
    | none => if idx < qs.length then qs.get? idx else none
  | none => if idx < qs.length then qs.get? idx else none

/-- Update of one source record (src/src/export.py, lines 99-102): a matched
question writes its formatted answer into the record unless that answer is
null; an unmatched record is left untouched.  The `Except` layer propagates
an `IndexError` from the formatter. -/
def updateRecord (qs : List Question) (idx : Nat) (r : SrcRecord) :
    Except String SrcRecord :=
  match matchRecord qs idx r with
  | none => .ok r
  | some q =>
    match formatAnswerForYaml q with
    | .error e => .error e
    | .ok none => .ok r
    | .ok (some a) => .ok { r with answer := some a }

/-- The record-updating loop of `export_results_to_yaml` over the
enumerated source records, starting at position `idx`. -/
def exportUpdateAll (qs : List Question) : Nat → List SrcRecord → Except String (List SrcRecord)
  | _, [] => .ok []
  | idx, r :: rest =>
    match updateRecord qs idx r, exportUpdateAll qs (idx + 1) rest with
    | .ok r2, .ok rest2 => .ok (r2 :: rest2)
    | .error e, _ => .error e
    | .ok _, .error e => .error e

/-- Invariant of the single-select handler state: free text is present only
together with the "other" sentinel index 0. -/
def singleOtherInv (q : Question) : Prop :=
  q.other_answer ≠ none → q.user_answer = some 0

/-- Invariant of the yes/no handler state: free text is present only
together with the "other" sentinel index 3. -/
def yesnoOtherInv (q : Question) : Prop :=
  q.other_answer ≠ none → q.user_answer = some 3

/-- A freshly constructed two-option single-select question, the state that
`Question("q", ["A", "B"], "single")` produces. -/
def qSingleBase : Question :=
  { question_text := "q", options := ["A", "B"], question_type := "single",
    question_id := none, correct_answer := none,
    user_answer := none, user_answers := [], other_answer := none }

/-- The state of `qSingleBase` after pressing 0 and entering only whitespace
as the free text: the handler stores the stripped, empty string together
with the sentinel 0. -/
def qOtherEmpty : Question :=
  { qSingleBase with user_answer := some 0, other_answer := some "" }

/-- A three-option multi-select question with options 3 and 1 toggled on. -/
def qMultiSel : Question :=
  { question_text := "q", options := ["A", "B", "C"], question_type := "multi",
    question_id := none, correct_answer := none,
    user_answer := none, user_answers := [3, 1], other_answer := none }

/-- An answered single-select question carrying id "a", used to exercise the
export reconciliation. -/
def qRecon : Question :=
  { question_text := "q", options := ["X"], question_type := "single",
    question_id := some "a", correct_answer := none,
    user_answer := some 1, user_answers := [], other_answer := none }

/-- A source record with id "a" and no answer written yet. -/
def recRecon : SrcRecord := { rid := some "a", answer := none, payload := "rest" }

/-- The state of `qSingleBase` with option 2 selected. -/
def qSel2 : Question := { qSingleBase with user_answer := some 2 }

/-- The state of `qSingleBase` after pressing 0 and entering "hi". -/
def qOtherHi : Question :=
  { qSingleBase with user_answer := some 0, other_answer := some "hi" }

/-- A yes/no question with the "other" choice (sentinel 3) and text "m". -/
def qYesnoOther : Question :=
  { question_text := "q", options := ["Yes", "No"], question_type := "yesno",
    question_id := none, correct_answer := none,
    user_answer := some 3, user_answers := [], other_answer := some "m" }

/-- The question that `Question("q", ["a"], "Weird")` constructs: the
unrecognized type string is stored lowercased. -/
def qWeird : Question :=
  { question_text := "q", options := ["a"], question_type := "weird",
    question_id := none, correct_answer := none,
    user_answer := none, user_answers := [], other_answer := none }

/-! Helper lemmas shared by several developments below. -/

theorem pySorted_sorted (l : List Nat) : (pySorted l).Sorted (· ≤ ·) :=
  List.sorted_insertionSort _ l

theorem pySorted_perm (l : List Nat) : (pySorted l).Perm l :=
  List.perm_insertionSort _ l

theorem pySorted_nodup (l : List Nat) (h : l.Nodup) : (pySorted l).Nodup :=
  (pySorted_perm l).nodup_iff.2 h

theorem pyIndex_pos {α : Type} (l : List α) (d : α) (k : Nat)
    (h1 : 1 ≤ k) (h2 : k ≤ l.length) :
    pyIndex l ((k : Int) - 1) = some (l.getD (k - 1) d) := by
  have h0 : (0 : Int) ≤ (k : Int) - 1 := by omega
  have ht : ((k : Int) - 1).toNat = k - 1 := by omega
  have hlt : k - 1 < l.length := by omega
  rw [pyIndex, if_pos h0, ht, List.get?_eq_get hlt, List.getD_eq_get l d hlt]

theorem pyIndexAll_of_range (opts : List String) (idxs : List Nat)
    (h : ∀ i ∈ idxs, 1 ≤ i ∧ i ≤ opts.length) :
    pyIndexAll opts idxs = some (idxs.map (fun i => opts.getD (i - 1) "")) := by
  induction idxs with
  | nil => rfl
  | cons i rest ih =>
    have hi := h i (by simp)
    have hrest : ∀ j ∈ rest, 1 ≤ j ∧ j ≤ opts.length := fun j hj => h j (by simp [hj])
    rw [pyIndexAll, pyIndex_pos opts "" i hi.1 hi.2, ih hrest]
    simp

theorem multiStep_digit (nOpts : Nat) (sel : Finset ℕ) (d : Nat)
    (h : 1 ≤ d ∧ d ≤ nOpts) :
    (multiStep nOpts sel (.digit d)).1
      = if d ∈ sel then sel.erase d else insert d sel := by
  show (if 1 ≤ d ∧ d ≤ nOpts then
      ((if d ∈ sel then sel.erase d else insert d sel : Finset ℕ),
        (none : Option (Option String × Option String)))
    else (sel, none)).1 = _
  rw [if_pos h]

/-- C3: for every Multi-type question and every in-range index, sending the
same digit twice in succession returns the selection set to its prior value:
toggling is its own inverse on the selection set. -/
theorem c3_multi_toggle_involution (nOpts : Nat) (sel : Finset ℕ) (d : Nat)
    (h1 : 1 ≤ d) (h2 : d ≤ nOpts) :
    (multiStep nOpts (multiStep nOpts sel (.digit d)).1 (.digit d)).1 = sel := by
  rw [multiStep_digit _ _ _ ⟨h1, h2⟩, multiStep_digit _ _ _ ⟨h1, h2⟩]
  by_cases hm : d ∈ sel
  · rw [if_pos hm, if_neg (Finset.not_mem_erase d sel), Finset.insert_erase hm]
  · rw [if_neg hm, if_pos (Finset.mem_insert_self d sel), Finset.erase_insert hm]

theorem c3_multi_toggle_involution_witness :
    (multiStep 3 (multiStep 3 ({1} : Finset ℕ) (.digit 2)).1 (.digit 2)).1
      = ({1} : Finset ℕ) :=
  c3_multi_toggle_involution 3 {1} 2 (by decide) (by decide)

/-- C5: with no pending selection, the Confirm (Enter) event leaves every
answer field unchanged and resolves to the skip-forward navigation command,
for all three handler variants; and the forward-advance step of the main
loop never moves the cursor past the last question. -/
theorem c5_confirm_no_selection (q : Question) (sel : Finset ℕ)
    (nOpts cursor total : Nat)
    (hua : q.user_answer = none) (hoa : q.other_answer = none)
    (hsel : sel = ∅) (hc : cursor < total) :
    singleStep q .enter = (q, some (none, some "n")) ∧
    yesnoStep q .enter = (q, some (none, some "n")) ∧
    multiStep nOpts sel .enter = (sel, some (none, some "n")) ∧
    (sessionNext cursor total).1 < total ∧
    (sessionNext cursor total).1 ≤ total - 1 := by
  subst hsel
  refine ⟨?_, ?_, ?_, ?_, ?_⟩
  · simp [singleStep, hua]
  · simp [yesnoStep, hua, hoa, truthyStr]
  · simp [multiStep]
  · by_cases h : cursor < total - 1 <;> simp [sessionNext, h] <;> omega
  · by_cases h : cursor < total - 1 <;> simp [sessionNext, h] <;> omega

theorem c5_confirm_no_selection_witness :
    singleStep qSingleBase .enter = (qSingleBase, some (none, some "n")) ∧
    yesnoStep qSingleBase .enter = (qSingleBase, some (none, some "n")) ∧
    multiStep 3 (∅ : Finset ℕ) .enter = ((∅ : Finset ℕ), some (none, some "n")) ∧
    (sessionNext 2 3).1 < 3 ∧
    (sessionNext 2 3).1 ≤ 3 - 1 :=
  c5_confirm_no_selection qSingleBase ∅ 3 2 3 rfl rfl rfl (by decide)

/-- C6: a jump target that fails to parse as an integer, or parses to a
value outside `[1, total]` (such as 0 or total+1), leaves the cursor
unchanged; a target `t` in `[1, total]` sets the 0-based cursor to `t - 1`,
so a jump to `total` lands on the last question. -/
theorem c6_jump_validation (s : String) (total cursor : Nat) (t : Int) :
    (pyParseInt s = none → jumpStep s total cursor = cursor) ∧
    (pyParseInt s = some t → (t < 1 ∨ (total : Int) < t) →
      jumpStep s total cursor = cursor) ∧
    (pyParseInt s = some t → 1 ≤ t → t ≤ (total : Int) →
      jumpStep s total cursor = t.toNat - 1) ∧
    (pyParseInt s = some (total : Int) → 1 ≤ total →
      jumpStep s total cursor = total - 1) := by
  refine ⟨?_, ?_, ?_, ?_⟩
  · intro h; simp only [jumpStep, h]
  · intro h hout; simp only [jumpStep, h]
    have hnc : ¬(1 ≤ t ∧ t ≤ (total : Int)) := by omega
    rw [if_neg hnc]
  · intro h h1 h2; simp only [jumpStep, h]
    rw [if_pos ⟨h1, h2⟩]
    omega
  · intro h h1; simp only [jumpStep, h]
    have hc : 1 ≤ (total : Int) ∧ (total : Int) ≤ (total : Int) := by omega
    rw [if_pos hc]
    omega

theorem c6_jump_validation_witness :
    jumpStep "abc" 3 1 = 1 ∧ jumpStep "0" 3 1 = 1 ∧
    jumpStep "4" 3 1 = 1 ∧ jumpStep "2" 3 0 = 1 ∧ jumpStep "3" 3 0 = 2 :=
  ⟨(c6_jump_validation "abc" 3 1 0).1 (by decide),
   (c6_jump_validation "0" 3 1 0).2.1 (by decide) (by decide),
   (c6_jump_validation "4" 3 1 4).2.1 (by decide) (by decide),
   (c6_jump_validation "2" 3 0 2).2.2.1 (by decide) (by decide) (by decide),
   (c6_jump_validation "3" 3 0 3).2.2.2 (by decide) (by decide)⟩

theorem pyStripList_eq_nil_iff (l : List Char) :
    pyStripList l = [] ↔ ∀ c ∈ l, isPyWS c := by
  constructor
  · intro h c hc
    have h1 : ((l.dropWhile isPyWS).reverse.dropWhile isPyWS) = [] := by
      have := congrArg List.reverse h
      simpa [pyStripList] using this
    have h2 : ∀ x ∈ (l.dropWhile isPyWS).reverse, isPyWS x :=
      List.dropWhile_eq_nil_iff.1 h1
    have h3 : ∀ x ∈ l.dropWhile isPyWS, isPyWS x := by
      intro x hx; exact h2 x (List.mem_reverse.2 hx)
    have h4 : ∀ x ∈ l.takeWhile isPyWS, isPyWS x := by
      intro x hx; exact List.mem_takeWhile_imp hx
    have hsplit : l = l.takeWhile isPyWS ++ l.dropWhile isPyWS :=
      (List.takeWhile_append_dropWhile isPyWS l).symm
    rw [hsplit] at hc
    rcases List.mem_append.1 hc with hc1 | hc2
    · exact h4 c hc1
    · exact h3 c hc2
  · intro h
    have h1 : l.dropWhile isPyWS = [] := List.dropWhile_eq_nil_iff.2 h
    simp [pyStripList, h1]

theorem pyStrip_eq_empty_iff (s : String) :
    pyStrip s = "" ↔ ∀ c ∈ s.data, isPyWS c := by
  rw [← pyStripList_eq_nil_iff]
  constructor
  · intro h
    have := congrArg String.data h
    simpa [pyStrip] using this
  · intro h
    show (⟨pyStripList s.data⟩ : String) = ""
    rw [h]

/-- C10: the constructor raises ValueError exactly when the question text is
None, empty, or whitespace-only; for non-blank text it succeeds, storing the
whitespace-stripped text and the whitespace-stripped option strings. -/
theorem c10_constructor_validation (text : String) (opts : List String)
    (ty : String) (qid : Option String) (corr : Option CorrInput) :
    (mkQuestion none opts ty qid corr = .error "Question text cannot be empty") ∧
    (pyStrip text = "" →
      mkQuestion (some text) opts ty qid corr = .error "Question text cannot be empty") ∧
    (pyStrip text ≠ "" →
      (mkQuestion (some text) opts ty qid corr).map Question.question_text
          = .ok (pyStrip text) ∧
      (mkQuestion (some text) opts ty qid corr).map Question.options
          = .ok (opts.map pyStrip) ∧
      (mkQuestion (some text) opts ty qid corr).map Question.user_answer = .ok none ∧
      (mkQuestion (some text) opts ty qid corr).map Question.other_answer = .ok none) ∧
    (pyStrip text = "" ↔ ∀ c ∈ text.data, isPyWS c) := by
  refine ⟨rfl, ?_, ?_, pyStrip_eq_empty_iff text⟩
  · intro h
    simp only [mkQuestion, Option.getD]
    rw [if_pos h]
  · intro h
    simp only [mkQuestion, Option.getD]
    rw [if_neg h]
    exact ⟨rfl, rfl, rfl, rfl⟩

theorem c10_constructor_validation_witness :
    (mkQuestion none ["a"] "single" none none
        = .error "Question text cannot be empty") ∧
    (mkQuestion (some "  ") ["a"] "single" none none
        = .error "Question text cannot be empty") ∧
    ((mkQuestion (some " hi ") ["a ", " b"] "single" none none).map
        Question.question_text = .ok "hi") ∧
    ((mkQuestion (some " hi ") ["a ", " b"] "single" none none).map
        Question.options = .ok ["a", "b"]) :=
  ⟨(c10_constructor_validation "x" ["a"] "single" none none).1,
   (c10_constructor_validation "  " ["a"] "single" none none).2.1 (by decide),
   ((c10_constructor_validation " hi " ["a ", " b"] "single" none none).2.2.1
      (by decide)).1,
   ((c10_constructor_validation " hi " ["a ", " b"] "single" none none).2.2.1
      (by decide)).2.1⟩

/-- C7: a supplied correctAnswer that is not an integer or lies outside
`[1, len(options)]` is stored as None with no error raised, while an
in-range value is stored unchanged. -/
theorem c7_correct_answer_validation (text : String) (opts : List String)
    (ty : String) (qid : Option String) (n : Int)
    (ht : pyStrip text ≠ "") :
    ((n < 1 ∨ (opts.length : Int) < n) →
      (mkQuestion (some text) opts ty qid (some (.intVal n))).map
        Question.correct_answer = .ok none) ∧
    ((mkQuestion (some text) opts ty qid (some .nonInt)).map
        Question.correct_answer = .ok none) ∧
    (1 ≤ n → n ≤ (opts.length : Int) →
      (mkQuestion (some text) opts ty qid (some (.intVal n))).map
        Question.correct_answer = .ok (some n)) := by
  refine ⟨?_, ?_, ?_⟩
  · intro h
    simp only [mkQuestion, Option.getD]
    rw [if_neg ht]
    have hc : n < 1 ∨ n > ((opts.map pyStrip).length : Int) := by
      rcases h with h | h
      · exact Or.inl h
      · refine Or.inr ?_
        simpa [List.length_map] using h
    simp only [Except.map]
    rw [if_pos hc]
  · simp only [mkQuestion, Option.getD]
    rw [if_neg ht]
    rfl
  · intro h1 h2
    simp only [mkQuestion, Option.getD]
    rw [if_neg ht]
    have hc : ¬(n < 1 ∨ n > ((opts.map pyStrip).length : Int)) := by
      rw [List.length_map]
      omega
    simp only [Except.map]
    rw [if_neg hc]

theorem c7_correct_answer_validation_witness :
    ((mkQuestion (some "ok") ["a", "b"] "single" none
        (some (.intVal 5))).map Question.correct_answer = .ok none) ∧
    ((mkQuestion (some "ok") ["a", "b"] "single" none
        (some (.intVal 0))).map Question.correct_answer = .ok none) ∧
    ((mkQuestion (some "ok") ["a", "b"] "single" none
        (some .nonInt)).map Question.correct_answer = .ok none) ∧
    ((mkQuestion (some "ok") ["a", "b"] "single" none
        (some (.intVal 2))).map Question.correct_answer = .ok (some 2)) :=
  ⟨(c7_correct_answer_validation "ok" ["a", "b"] "single" none 5
      (by decide)).1 (by decide),
   (c7_correct_answer_validation "ok" ["a", "b"] "single" none 0
      (by decide)).1 (by decide),
   (c7_correct_answer_validation "ok" ["a", "b"] "single" none 0
      (by decide)).2.1,
   (c7_correct_answer_validation "ok" ["a", "b"] "single" none 2
      (by decide)).2.2 (by decide) (by decide)⟩

/-- C8 as stated is false: an unrecognized type string is dispatched to the
single-select handler, but it is not STORED as a Single-type question — the
constructor keeps the lowercased input string.  Here the constructed
question's stored type is "weird", not "single". -/
theorem c8_counterexample :
    (mkQuestion (some "q") ["a"] "Weird" none none).map Question.question_type
        = .ok "weird" ∧
    ("weird" : String) ≠ "single" :=
  ⟨rfl, by decide⟩

/-- C8 amended: a question record whose type string is outside
{single, multi, yesno} is dispatched as a Single-type question by the
handler dispatch, but its stored type field is the lowercased input string,
which is preserved rather than replaced by "single". -/
theorem c8_amended (text ty : String) (opts : List String)
    (qid : Option String) (corr : Option CorrInput) (q : Question)
    (ht : pyStrip text ≠ "") (hne : ty ≠ "")
    (h : mkQuestion (some text) opts ty qid corr = .ok q) :
    q.question_type = pyLower ty ∧
    (pyLower ty ≠ "multi" → pyLower ty ≠ "yesno" →
      dispatchType q.question_type = .single) := by
  simp only [mkQuestion, Option.getD] at h
  rw [if_neg ht] at h
  have hq : q.question_type = if ty = "" then "single" else pyLower ty := by
    have := congrArg (Except.map Question.question_type) h
    simpa [Except.map] using this.symm
  rw [if_neg hne] at hq
  refine ⟨hq, ?_⟩
  intro hm hy
  rw [dispatchType, hq, if_neg hm, if_neg hy]

theorem c8_amended_witness :
    qWeird.question_type = pyLower "Weird" ∧
    dispatchType qWeird.question_type = .single :=
  ⟨(c8_amended "q" "Weird" ["a"] none none qWeird (by decide) (by decide) rfl).1,
   (c8_amended "q" "Weird" ["a"] none none qWeird (by decide) (by decide) rfl).2
      (by decide) (by decide)⟩

/-- C1 as stated is false at this input: a Single question whose state is
`user_answer = 0` with empty free text (reachable by pressing 0 and entering
only whitespace) is answered, yet `_format_answer_for_yaml` exports
`{index: 0, option: "B"}` — index 0, with the LAST option via Python
negative indexing — which is none of the three claimed shapes. -/
theorem c1_counterexample :
    formatAnswerForYaml qOtherEmpty
        = .ok (some (.choiceVal 0 "B")) ∧
    qOtherEmpty.is_answered = true :=
  ⟨rfl, rfl⟩

/-- C1 amended: for every Single-type question whose positive answers are in
range and whose free text is truthy whenever the sentinel 0 is set, both
`_format_answer_for_yaml` and `get_answer_dict` export exactly one of: null
when unanswered, the Other object when `user_answer` is 0 with its free
text, or `{index: k, option: k-th option}` with k in `[1, len(options)]`. -/
theorem c1_amended (q : Question) (k : Nat) (t : String)
    (hty : q.question_type = "single")
    (hrange : q.user_answer.getD 0 ≤ q.options.length)
    (hother : q.user_answer = some 0 → truthyStr q.other_answer = true) :
    (q.user_answer = none →
      formatAnswerForYaml q = .ok none ∧
      getAnswerDictAnswer q = none ∧ q.is_answered = false) ∧
    (q.user_answer = some 0 → q.other_answer = some t →
      formatAnswerForYaml q = .ok (some (.otherVal t)) ∧
      getAnswerDictAnswer q = some (.otherVal t)) ∧
    (q.user_answer = some k → 1 ≤ k →
      k ≤ q.options.length ∧
      formatAnswerForYaml q = .ok (some (.choiceVal k (q.options.getD (k - 1) ""))) ∧
      getAnswerDictAnswer q = some (.choiceVal k (q.options.getD (k - 1) ""))) := by
  have hsm : ¬(q.question_type = "multi") := by rw [hty]; decide
  have hsy : ¬(q.question_type = "yesno") := by rw [hty]; decide
  refine ⟨?_, ?_, ?_⟩
  · intro hua
    refine ⟨?_, ?_, ?_⟩
    · simp [formatAnswerForYaml, hsm, hsy, hua]
    · simp [getAnswerDictAnswer, hsm, hsy, hua]
    · simp [Question.is_answered, hsm, hsy, hua]
  · intro hua hoa
    have htr := hother hua
    rw [hoa] at htr
    refine ⟨?_, ?_⟩
    · simp [formatAnswerForYaml, hsm, hsy, hua, hoa, htr]
    · simp [getAnswerDictAnswer, hsm, hsy, hua, hoa, htr]
  · intro hua hk
    have hkle : k ≤ q.options.length := by
      rw [hua] at hrange
      simpa using hrange
    have hne0 : ¬(q.user_answer = some 0 ∧ truthyStr q.other_answer) := by
      rw [hua]
      rintro ⟨h0, -⟩
      have hk0 : k = 0 := by simpa using h0
      omega
    refine ⟨hkle, ?_, ?_⟩
    · simp only [formatAnswerForYaml]
      rw [if_neg hsm, if_neg hsy, if_neg hne0]
      simp only [hua]
      rw [pyIndex_pos q.options "" k hk hkle]
    · simp only [getAnswerDictAnswer]
      rw [if_neg hsm, if_neg hsy, if_neg hne0]
      simp only [hua]
      rw [if_pos ⟨hk, hkle⟩]

theorem c1_amended_witness :
    formatAnswerForYaml qSingleBase = .ok none ∧
    formatAnswerForYaml qSel2 = .ok (some (.choiceVal 2 "B")) ∧
    formatAnswerForYaml qOtherHi = .ok (some (.otherVal "hi")) :=
  ⟨((c1_amended qSingleBase 1 "" rfl (by decide)
      (by intro hcon; simp [qSingleBase] at hcon)).1 rfl).1,
   (((c1_amended qSel2 2 "" rfl (by decide)
      (by intro hcon; simp [qSel2, qSingleBase] at hcon)).2.2 rfl (by decide)).2).1,
   ((c1_amended qOtherHi 1 "hi" rfl (by decide) (fun _ => rfl)).2.1 rfl rfl).1⟩

/-- C2 as stated is false at these inputs: after Digit(0) with free text
" x " the stored text is the STRIPPED "x", not " x "; and a subsequent
non-zero but out-of-range digit (7 on a two-option question) does not clear
the free text. -/
theorem c2_counterexample :
    (singleStep qSingleBase (.digit 0 " x ")).1.other_answer = some "x" ∧
    ((" x " : String) ≠ "x") ∧
    (singleStep (singleStep qSingleBase (.digit 0 "hi")).1
        (.digit 7 "")).1.other_answer = some "hi" :=
  ⟨rfl, by decide, rfl⟩

/-- C2 amended: for Single and YesNo questions the free text is non-null
only together with its sentinel index (0 resp. 3) — an invariant preserved
by every handler event — and selecting a non-"other" option clears it; after
Digit(0) with free text t the stored pair is (0, strip(t)) and the question
counts as answered; a subsequent IN-RANGE non-zero digit clears the free
text (out-of-range digits leave the state unchanged). -/
theorem c2_amended (q : Question) (e : SEvent) (e2 : YEvent) (t : String) (d : Nat) :
    (singleOtherInv q → singleOtherInv (singleStep q e).1) ∧
    (yesnoOtherInv q → yesnoOtherInv (yesnoStep q e2).1) ∧
    ((yesnoStep q .yes).1.other_answer = none ∧
      (yesnoStep q .no).1.other_answer = none) ∧
    ((singleStep q (.digit 0 t)).1.user_answer = some 0 ∧
      (singleStep q (.digit 0 t)).1.other_answer = some (pyStrip t)) ∧
    (q.question_type = "single" →
      (singleStep q (.digit 0 t)).1.is_answered = true) ∧
    (1 ≤ d → d ≤ q.options.length →
      (singleStep q (.digit d t)).1.user_answer = some d ∧
      (singleStep q (.digit d t)).1.other_answer = none) := by
  refine ⟨?_, ?_, ⟨rfl, rfl⟩, ?_, ?_, ?_⟩
  · intro hinv
    cases e with
    | left => exact hinv
    | keyQuit => exact hinv
    | keyJump => exact hinv
    | keySummary => exact hinv
    | char c => exact hinv
    | right =>
      cases hu : q.user_answer with
      | none => simpa [singleStep, hu] using hinv
      | some ua =>
        simp only [singleStep, hu]
        split <;> exact hinv
    | enter =>
      cases hu : q.user_answer with
      | none => simpa [singleStep, hu] using hinv
      | some ua =>
        simp only [singleStep, hu]
        split <;> exact hinv
    | digit d0 t0 =>
      simp only [singleStep]
      split
      · exact hinv
      · split
        · intro _
          rfl
        · intro hcon
          exact absurd rfl hcon
  · intro hinv
    cases e2 with
    | left => exact hinv
    | keyQuit => exact hinv
    | keyJump => exact hinv
    | keySummary => exact hinv
    | char c => exact hinv
    | right =>
      have hfix : (yesnoStep q .right).1 = q := by
        simp only [yesnoStep]
        split
        · rfl
        · split
          · rfl
          · split
            · rfl
            · rfl
      rw [hfix]
      exact hinv
    | enter =>
      have hfix : (yesnoStep q .enter).1 = q := by
        simp only [yesnoStep]
        split
        · rfl
        · split
          · rfl
          · split
            · rfl
            · rfl
      rw [hfix]
      exact hinv
    | yes =>
      intro hcon
      exact absurd rfl hcon
    | no =>
      intro hcon
      exact absurd rfl hcon
    | otherKey t0 =>
      intro _
      rfl
  · have h0 : ¬(0 > q.options.length) := by omega
    constructor
    · simp [singleStep, h0]
    · simp [singleStep, h0]
  · intro hty
    have h0 : ¬(0 > q.options.length) := by omega
    have hsm : ¬(q.question_type = "multi") := by rw [hty]; decide
    have hsy : ¬(q.question_type = "yesno") := by rw [hty]; decide
    simp [singleStep, Question.is_answered, h0, hsm, hsy]
  · intro h1 h2
    have hnd : ¬(d > q.options.length) := by omega
    have hne : ¬(d = 0) := by omega
    constructor
    · simp [singleStep, hnd, hne]
    · simp [singleStep, hnd, hne]

theorem c2_amended_witness :
    (singleStep qSingleBase (.digit 0 "hi")).1.user_answer = some 0 ∧
    (singleStep qSingleBase (.digit 0 "hi")).1.other_answer = some "hi" ∧
    (singleStep qSingleBase (.digit 0 "hi")).1.is_answered = true ∧
    (singleStep (singleStep qSingleBase (.digit 0 "hi")).1
        (.digit 2 "")).1.other_answer = none ∧
    (yesnoStep qYesnoOther .yes).1.other_answer = none :=
  ⟨(c2_amended qSingleBase .enter .enter "hi" 2).2.2.2.1.1,
   (c2_amended qSingleBase .enter .enter "hi" 2).2.2.2.1.2,
   (c2_amended qSingleBase .enter .enter "hi" 2).2.2.2.2.1 rfl,
   ((c2_amended (singleStep qSingleBase (.digit 0 "hi")).1 .enter .enter "" 2).2.2.2.2.2
      (by decide) (by decide)).2,
   (c2_amended qYesnoOther .enter .yes "" 1).2.2.1.1⟩

/-- C4: for every Multi-type question in a handler-reachable state (distinct
in-range indices), the exported answer is the ascending, duplicate-free list
of selected indices with the corresponding option strings, and null when the
selection is empty. -/
theorem c4_multi_export (q : Question)
    (hty : q.question_type = "multi")
    (hnd : q.user_answers.Nodup)
    (hrange : ∀ i ∈ q.user_answers, 1 ≤ i ∧ i ≤ q.options.length) :
    (q.user_answers = [] →
      formatAnswerForYaml q = .ok none ∧ formatMultiAnswer q = none) ∧
    (q.user_answers ≠ [] →
      (pySorted q.user_answers).Sorted (· ≤ ·) ∧
      (pySorted q.user_answers).Nodup ∧
      (pySorted q.user_answers).Perm q.user_answers ∧
      formatAnswerForYaml q = .ok (some (.multiVal (pySorted q.user_answers)
        ((pySorted q.user_answers).map (fun i => q.options.getD (i - 1) "")))) ∧
      formatMultiAnswer q = some (String.intercalate ","
        ((pySorted q.user_answers).map toString))) := by
  constructor
  · intro he
    constructor
    · simp [formatAnswerForYaml, hty, he]
    · simp [formatMultiAnswer, he]
  · intro hne
    have hr2 : ∀ i ∈ pySorted q.user_answers, 1 ≤ i ∧ i ≤ q.options.length := by
      intro i hi
      exact hrange i ((pySorted_perm q.user_answers).mem_iff.1 hi)
    refine ⟨pySorted_sorted _, pySorted_nodup _ hnd, pySorted_perm _, ?_, ?_⟩
    · simp only [formatAnswerForYaml]
      rw [if_pos hty, if_pos hne, pyIndexAll_of_range q.options _ hr2]
    · simp only [formatMultiAnswer]
      rw [if_pos hne]

theorem c4_multi_export_witness :
    formatAnswerForYaml qMultiSel = .ok (some (.multiVal [1, 3] ["A", "C"])) ∧
    formatMultiAnswer qMultiSel = some "1,3" :=
  ⟨(((c4_multi_export qMultiSel rfl (by decide) (by decide)).2 (by decide)).2.2.2).1,
   (((c4_multi_export qMultiSel rfl (by decide) (by decide)).2 (by decide)).2.2.2).2⟩

theorem exportUpdateAll_get (qs : List Question) (recs : List SrcRecord) :
    ∀ (start : Nat) (out : List SrcRecord),
      exportUpdateAll qs start recs = .ok out →
      ∀ (n : Nat) (r : SrcRecord), recs.get? n = some r →
        ∃ r2, updateRecord qs (start + n) r = .ok r2 ∧ out.get? n = some r2 := by
  induction recs with
  | nil =>
    intro start out h n r hr
    simp [List.get?] at hr
  | cons r0 rest ih =>
    intro start out h n r hr
    rw [exportUpdateAll] at h
    cases hu : updateRecord qs start r0 with
    | error e =>
      rw [hu] at h
      simp at h
    | ok r2 =>
      rw [hu] at h
      cases hrec : exportUpdateAll qs (start + 1) rest with
      | error e =>
        rw [hrec] at h
        simp at h
      | ok out2 =>
        rw [hrec] at h
        have hout : out = r2 :: out2 := by simpa using h.symm
        cases n with
        | zero =>
          have hr0 : r0 = r := by simpa [List.get?] using hr
          refine ⟨r2, ?_, ?_⟩
          · rw [Nat.add_zero, ← hr0]
            exact hu
          · rw [hout]
            rfl
        | succ m =>
          obtain ⟨r3, hu3, ho3⟩ := ih (start + 1) out2 hrec m r (by simpa [List.get?] using hr)
          refine ⟨r3, ?_, ?_⟩
          · have harith : start + (m + 1) = (start + 1) + m := by omega
            rw [harith]
            exact hu3
          · rw [hout]
            simpa [List.get?] using ho3

/-- C9: in the export loop, a source record whose id matches the id of an
in-memory question is updated in place with that question's formatted
answer; a record with no id match falls back to positional matching by list
index; a record matched neither by id nor by position is left untouched (as
is a matched record whose question has a null answer). -/
theorem c9_reconciliation (qs : List Question) (recs out : List SrcRecord)
    (idx : Nat) (r : SrcRecord)
    (h : exportUpdateAll qs 0 recs = .ok out) (hr : recs.get? idx = some r) :
    (∀ key qq a, r.rid = some key → findById qs key = some qq →
      formatAnswerForYaml qq = .ok (some a) →
      out.get? idx = some { r with answer := some a }) ∧
    (∀ key qq, r.rid = some key → findById qs key = some qq →
      formatAnswerForYaml qq = .ok none →
      out.get? idx = some r) ∧
    (∀ qq a, (r.rid = none ∨ ∃ key, r.rid = some key ∧ findById qs key = none) →
      qs.get? idx = some qq → formatAnswerForYaml qq = .ok (some a) →
      out.get? idx = some { r with answer := some a }) ∧
    ((r.rid = none ∨ ∃ key, r.rid = some key ∧ findById qs key = none) →
      qs.length ≤ idx → out.get? idx = some r) := by
  obtain ⟨r2, hu, hout⟩ := exportUpdateAll_get qs recs 0 out h idx r hr
  rw [Nat.zero_add] at hu
  refine ⟨?_, ?_, ?_, ?_⟩
  · intro key qq a hk hf hfa
    have hm : matchRecord qs idx r = some qq := by
      simp only [matchRecord, hk, hf]
    have h2 : r2 = { r with answer := some a } := by
      simp only [updateRecord, hm, hfa] at hu
      simpa using hu.symm
    rw [hout, h2]
  · intro key qq hk hf hfa
    have hm : matchRecord qs idx r = some qq := by
      simp only [matchRecord, hk, hf]
    have h2 : r2 = r := by
      simp only [updateRecord, hm, hfa] at hu
      simpa using hu.symm
    rw [hout, h2]
  · intro qq a hor hq hfa
    have hlt : idx < qs.length := by
      rcases List.get?_eq_some.1 hq with ⟨hlt, -⟩
      exact hlt
    have hm : matchRecord qs idx r = some qq := by
      rcases hor with hn | ⟨key, hk, hf⟩
      · simp only [matchRecord, hn]
        rw [if_pos hlt]
        exact hq
      · simp only [matchRecord, hk, hf]
        rw [if_pos hlt]
        exact hq
    have h2 : r2 = { r with answer := some a } := by
      simp only [updateRecord, hm, hfa] at hu
      simpa using hu.symm
    rw [hout, h2]
  · intro hor hlen
    have hnlt : ¬(idx < qs.length) := by omega
    have hm : matchRecord qs idx r = none := by
      rcases hor with hn | ⟨key, hk, hf⟩
      · simp only [matchRecord, hn]
        rw [if_neg hnlt]
      · simp only [matchRecord, hk, hf]
        rw [if_neg hnlt]
    have h2 : r2 = r := by
      simp only [updateRecord, hm] at hu
      simpa using hu.symm
    rw [hout, h2]

theorem c9_reconciliation_witness :
    ([{ rid := some "a", answer := some (.choiceVal 1 "X"), payload := "rest" }] :
        List SrcRecord).get? 0 = some { recRecon with answer := some (.choiceVal 1 "X") } :=
  (c9_reconciliation [qRecon]
      [recRecon]
      [{ rid := some "a", answer := some (.choiceVal 1 "X"), payload := "rest" }]
      0 recRecon rfl rfl).1 "a" qRecon (.choiceVal 1 "X") rfl rfl rfl

end McqTui
